import Mathlib

/-!
Verification of the InfiniTime BLE file-transfer client (`src/src/lib.rs`,
wire records in `src/src/responses.rs`).

A frame (one BLE notification or one characteristic write) is modelled as a
`List Nat` of byte values.  An operation takes the byte list of each argument
plus the list of notification frames the device will deliver, and returns the
list of frames the client writes to the transfer characteristic together with
an `Except` result (`Except.error` models a Rust panic or assertion failure).
All integers on the wire are little-endian; Rust `as u16` / `as u32` casts are
modelled by the truncation the little-endian byte encoders perform.
-/

namespace PineTime

/-- Little-endian bytes of a Rust `u16` (`to_le_bytes` after an `as u16` cast:
only the low 16 bits of `n` are kept). -/
def u16_le (n : Nat) : List Nat :=
  [n % 256, n / 256 % 256]

/-- Little-endian bytes of a Rust `u32`. -/
def u32_le (n : Nat) : List Nat :=
  [n % 256, n / 256 % 256, n / 65536 % 256, n / 16777216 % 256]

/-- Little-endian bytes of a Rust `u64`. -/
def u64_le (n : Nat) : List Nat :=
  u32_le n ++ u32_le (n / 4294967296)

/-- Value of a little-endian byte list. -/
def le_val (bs : List Nat) : Nat :=
  bs.foldr (fun b acc => b + 256 * acc) 0

/-- The `u16` field starting at byte `i` of a packed record. -/
def fld16 (body : List Nat) (i : Nat) : Nat :=
  le_val ((body.drop i).take 2)

/-- The `u32` field starting at byte `i` of a packed record. -/
def fld32 (body : List Nat) (i : Nat) : Nat :=
  le_val ((body.drop i).take 4)

/-- The `u64` field starting at byte `i` of a packed record. -/
def fld64 (body : List Nat) (i : Nat) : Nat :=
  le_val ((body.drop i).take 8)

/-- A byte reinterpreted as Rust `i8` (the wire `status` field is signed). -/
def i8_of_byte (b : Nat) : Int :=
  if b < 128 then (b : Int) else (b : Int) - 256

/-- How a client operation can fail: each constructor models one Rust panic
site in `src/src/lib.rs`. -/
inductive ProtoError where
  /-- `bytemuck::from_bytes` on a slice whose length is not the record size. -/
  | sizeMismatch
  /-- `Vec::split_off` past the end of the notification buffer. -/
  | splitPanic
  /-- `assert_eq!(response.command, T::COMMAND)` failed. -/
  | badCommand
  /-- `assert_eq!(response.status, 1, "bad status")` failed. -/
  | badStatus
  /-- an `assert_eq!` inside an operation loop failed (offset, length or
  entry-number check). -/
  | assertFail
  /-- slice index `data[offset..]` out of bounds. -/
  | indexPanic
  /-- `Option::unwrap` on an exhausted notification stream. -/
  | missingReply
deriving DecidableEq, Repr

/-- `InfiniTime::recv::<T>` (lib.rs lines 70-78) on one notification frame:
`bytemuck::from_bytes` casts the whole buffer to `Response<T>` (so the buffer
must be exactly `2 + size_of::<T>()` bytes), then the command and status
bytes are asserted.  Returns the body bytes. -/
def recv (bodySize cmd : Nat) (frame : List Nat) : Except ProtoError (List Nat) :=
  if frame.length ≠ 2 + bodySize then .error .sizeMismatch
  else if frame.getD 0 256 ≠ cmd then .error .badCommand
  else if i8_of_byte (frame.getD 1 256) ≠ 1 then .error .badStatus
  else .ok (frame.drop 2)

/-- `InfiniTime::payload_recv::<T>` (lib.rs lines 80-93) on one notification
frame, exactly as the source writes it: the buffer is split with
`data.split_off(size_of::<T>())` — at `size_of::<T>()`, not at
`size_of::<Response<T>>() = 2 + size_of::<T>()` — and the prefix is then cast
to `Response<T>` with `bytemuck::from_bytes`, which requires exactly
`2 + size_of::<T>()` bytes.  Returns the body bytes and the split-off
payload. -/
def payload_recv (bodySize cmd : Nat) (frame : List Nat) :
    Except ProtoError (List Nat × List Nat) :=
  if frame.length < bodySize then .error .splitPanic
  else
    let data := frame.take bodySize
    let payload := frame.drop bodySize
    if data.length ≠ 2 + bodySize then .error .sizeMismatch
    else if data.getD 0 256 ≠ cmd then .error .badCommand
    else if i8_of_byte (data.getD 1 256) ≠ 1 then .error .badStatus
    else .ok (data.drop 2, payload)

/-- The payload-carrying receive as the spec describes it (§4.3: "split the
byte buffer at `2 + sizeof(body)`"), for comparison with the source's
`payload_recv`, which splits two bytes early. -/
def payload_recv_spec (bodySize cmd : Nat) (frame : List Nat) :
    Except ProtoError (List Nat × List Nat) :=
  if frame.length < 2 + bodySize then .error .splitPanic
  else
    let data := frame.take (2 + bodySize)
    let payload := frame.drop (2 + bodySize)
    if data.length ≠ 2 + bodySize then .error .sizeMismatch
    else if data.getD 0 256 ≠ cmd then .error .badCommand
    else if i8_of_byte (data.getD 1 256) ≠ 1 then .error .badStatus
    else .ok (data.drop 2, payload)

/-- UTF-8 continuation byte test (`0x80..=0xBF`). -/
def utf8_cont (b : Nat) : Bool :=
  128 ≤ b && b ≤ 191

/-- Allowed second byte of a multi-byte UTF-8 sequence led by `b` (the ranges
exclude overlong encodings, surrogates and values above `U+10FFFF`). -/
def utf8_second_ok (b b2 : Nat) : Bool :=
  if b = 224 then 160 ≤ b2 && b2 ≤ 191
  else if b = 237 then 128 ≤ b2 && b2 ≤ 159
  else if b = 240 then 144 ≤ b2 && b2 ≤ 191
  else if b = 244 then 128 ≤ b2 && b2 ≤ 143
  else utf8_cont b2

/-- The replacement character `U+FFFD`. -/
def repl : Char :=
  Char.ofNat 65533

/-- The scalar value of a two-byte UTF-8 sequence. -/
def utf8_val2 (b b2 : Nat) : Char :=
  Char.ofNat ((b - 192) * 64 + (b2 - 128))

/-- The scalar value of a three-byte UTF-8 sequence. -/
def utf8_val3 (b b2 b3 : Nat) : Char :=
  Char.ofNat ((b - 224) * 4096 + (b2 - 128) * 64 + (b3 - 128))

/-- The scalar value of a four-byte UTF-8 sequence. -/
def utf8_val4 (b b2 b3 b4 : Nat) : Char :=
  Char.ofNat ((b - 240) * 262144 + (b2 - 128) * 4096 + (b3 - 128) * 64 + (b4 - 128))

/-- Models Rust std's `String::from_utf8_lossy` (used at lib.rs line 110):
well-formed scalar sequences decode; each maximal invalid subpart — an
invalid lead byte, or a lead byte plus the continuation bytes that were valid
before the first invalid one — becomes one `U+FFFD`; a truncated sequence at
the end becomes one `U+FFFD`. -/
def from_utf8_lossy : List Nat → List Char
  | [] => []
  | [b] =>
    if b < 128 then [Char.ofNat b] else [repl]
  | [b, b2] =>
    if b < 128 then Char.ofNat b :: from_utf8_lossy [b2]
    else if b < 194 then repl :: from_utf8_lossy [b2]
    else if b < 224 then
      if utf8_cont b2 then [utf8_val2 b b2]
      else repl :: from_utf8_lossy [b2]
    else if b < 245 then
      if utf8_second_ok b b2 then [repl]
      else repl :: from_utf8_lossy [b2]
    else repl :: from_utf8_lossy [b2]
  | [b, b2, b3] =>
    if b < 128 then Char.ofNat b :: from_utf8_lossy [b2, b3]
    else if b < 194 then repl :: from_utf8_lossy [b2, b3]
    else if b < 224 then
      if utf8_cont b2 then utf8_val2 b b2 :: from_utf8_lossy [b3]
      else repl :: from_utf8_lossy [b2, b3]
    else if b < 240 then
      if utf8_second_ok b b2 then
        if utf8_cont b3 then [utf8_val3 b b2 b3]
        else repl :: from_utf8_lossy [b3]
      else repl :: from_utf8_lossy [b2, b3]
    else if b < 245 then
      if utf8_second_ok b b2 then
        if utf8_cont b3 then [repl]
        else repl :: from_utf8_lossy [b3]
      else repl :: from_utf8_lossy [b2, b3]
    else repl :: from_utf8_lossy [b2, b3]
  | b :: b2 :: b3 :: b4 :: rest =>
    if b < 128 then Char.ofNat b :: from_utf8_lossy (b2 :: b3 :: b4 :: rest)
    else if b < 194 then repl :: from_utf8_lossy (b2 :: b3 :: b4 :: rest)
    else if b < 224 then
      if utf8_cont b2 then utf8_val2 b b2 :: from_utf8_lossy (b3 :: b4 :: rest)
      else repl :: from_utf8_lossy (b2 :: b3 :: b4 :: rest)
    else if b < 240 then
      if utf8_second_ok b b2 then
        if utf8_cont b3 then utf8_val3 b b2 b3 :: from_utf8_lossy (b4 :: rest)
        else repl :: from_utf8_lossy (b3 :: b4 :: rest)
      else repl :: from_utf8_lossy (b2 :: b3 :: b4 :: rest)
    else if b < 245 then
      if utf8_second_ok b b2 then
        if utf8_cont b3 then
          if utf8_cont b4 then utf8_val4 b b2 b3 b4 :: from_utf8_lossy rest
          else repl :: from_utf8_lossy (b4 :: rest)
        else repl :: from_utf8_lossy (b3 :: b4 :: rest)
      else repl :: from_utf8_lossy (b2 :: b3 :: b4 :: rest)
    else repl :: from_utf8_lossy (b2 :: b3 :: b4 :: rest)

/-- Host-side directory entry (`DirEntry` in lib.rs, lines 261-267); the path
is the lossily decoded text. -/
structure DirEntry where
  flags : Nat
  timestamp : Nat
  size : Nat
  path : List Char
deriving DecidableEq, Repr

/-! ## Field offsets of the packed response bodies (responses.rs)

`RawDirEntry` (26 bytes): `path_len : u16` at 0, `entry_number : u32` at 2,
`entry_count : u32` at 6, `flags : u32` at 10, `timestamp : u64` at 14,
`size : u32` at 22.  `FileChunk` (14 bytes): 2 padding bytes, `offset : u32`
at 2, `total_len : u32` at 6, `current_len : u32` at 10.  `WriteReceipt` is
18 bytes, `MkdirReceipt` 14 bytes, `RmReceipt` and `MvReceipt` 0 bytes. -/

def dir_path_len (body : List Nat) : Nat := fld16 body 0
def dir_entry_number (body : List Nat) : Nat := fld32 body 2
def dir_entry_count (body : List Nat) : Nat := fld32 body 6
def dir_flags (body : List Nat) : Nat := fld32 body 10
def dir_timestamp (body : List Nat) : Nat := fld64 body 14
def dir_size (body : List Nat) : Nat := fld32 body 22

def chunk_offset (body : List Nat) : Nat := fld32 body 2
def chunk_total_len (body : List Nat) : Nat := fld32 body 6
def chunk_current_len (body : List Nat) : Nat := fld32 body 10

/-! ## Operation state machines (lib.rs) -/

/-- The request frame `list_dir` sends (lib.rs lines 96-101). -/
def list_dir_request (path : List Nat) : List Nat :=
  [80, 0] ++ u16_le path.length ++ path

/-- The receive loop of `list_dir` (lib.rs lines 104-122), using the source's
`payload_recv`. -/
def list_dir_loop (ns : List (List Nat)) (entries : List DirEntry) :
    Except ProtoError (List DirEntry) :=
  match ns with
  | [] => .ok entries
  | frame :: rest =>
    match payload_recv 26 81 frame with
    | .error e => .error e
    | .ok (body, payload) =>
      if dir_entry_number body ≠ entries.length then .error .assertFail
      else if dir_path_len body ≠ payload.length then .error .assertFail
      else
        let entries2 := entries ++
          [⟨dir_flags body, dir_timestamp body, dir_size body, from_utf8_lossy payload⟩]
        if dir_entry_number body = dir_entry_count body then .ok entries2
        else list_dir_loop rest entries2

/-- `InfiniTime::list_dir` (lib.rs lines 95-125): the written frames (always
exactly the one request) and the result. -/
def list_dir (path : List Nat) (ns : List (List Nat)) :
    List (List Nat) × Except ProtoError (List DirEntry) :=
  ([list_dir_request path], list_dir_loop ns [])

/-- The receive loop of `list_dir` over the spec's split point
(`payload_recv_spec`), otherwise identical to `list_dir_loop`. -/
def list_dir_spec_loop (ns : List (List Nat)) (entries : List DirEntry) :
    Except ProtoError (List DirEntry) :=
  match ns with
  | [] => .ok entries
  | frame :: rest =>
    match payload_recv_spec 26 81 frame with
    | .error e => .error e
    | .ok (body, payload) =>
      if dir_entry_number body ≠ entries.length then .error .assertFail
      else if dir_path_len body ≠ payload.length then .error .assertFail
      else
        let entries2 := entries ++
          [⟨dir_flags body, dir_timestamp body, dir_size body, from_utf8_lossy payload⟩]
        if dir_entry_number body = dir_entry_count body then .ok entries2
        else list_dir_spec_loop rest entries2

/-- `list_dir` over the spec's split point. -/
def list_dir_spec (path : List Nat) (ns : List (List Nat)) :
    List (List Nat) × Except ProtoError (List DirEntry) :=
  ([list_dir_request path], list_dir_spec_loop ns [])

/-- The request frame `read_file` sends (lib.rs lines 130-137):
`offset = 0`, `chunk_size = MAX_PAYLOAD = 231`. -/
def read_file_request (path : List Nat) : List Nat :=
  [16, 0] ++ u16_le path.length ++ u32_le 0 ++ u32_le 231 ++ path

/-- The continue frame `read_file` sends after a non-final chunk
(lib.rs lines 152-158). -/
def continue_request (offset : Nat) : List Nat :=
  [18, 1, 0, 0] ++ u32_le offset ++ u32_le 231

/-- The receive loop of `read_file` (lib.rs lines 142-160), using the
source's `payload_recv`: validates offset and `current_len`, accumulates the
payload, stops when the accumulator length equals `total_len`, otherwise
advances the offset and emits a continue frame. -/
def read_file_loop (ns : List (List Nat)) (offset : Nat) (contents : List Nat) :
    List (List Nat) × Except ProtoError (List Nat) :=
  match ns with
  | [] => ([], .ok contents)
  | frame :: rest =>
    match payload_recv 14 17 frame with
    | .error e => ([], .error e)
    | .ok (body, payload) =>
      if chunk_offset body ≠ offset then ([], .error .assertFail)
      else if chunk_current_len body ≠ payload.length then ([], .error .assertFail)
      else
        let contents2 := contents ++ payload
        if contents2.length = chunk_total_len body then ([], .ok contents2)
        else
          let offset2 := offset + chunk_current_len body
          let t := read_file_loop rest offset2 contents2
          (continue_request offset2 :: t.1, t.2)

/-- `InfiniTime::read_file` (lib.rs lines 127-163). -/
def read_file (path : List Nat) (ns : List (List Nat)) :
    List (List Nat) × Except ProtoError (List Nat) :=
  let t := read_file_loop ns 0 []
  (read_file_request path :: t.1, t.2)

/-- The receive loop of `read_file` over the spec's split point, otherwise
identical to `read_file_loop`. -/
def read_file_spec_loop (ns : List (List Nat)) (offset : Nat) (contents : List Nat) :
    List (List Nat) × Except ProtoError (List Nat) :=
  match ns with
  | [] => ([], .ok contents)
  | frame :: rest =>
    match payload_recv_spec 14 17 frame with
    | .error e => ([], .error e)
    | .ok (body, payload) =>
      if chunk_offset body ≠ offset then ([], .error .assertFail)
      else if chunk_current_len body ≠ payload.length then ([], .error .assertFail)
      else
        let contents2 := contents ++ payload
        if contents2.length = chunk_total_len body then ([], .ok contents2)
        else
          let offset2 := offset + chunk_current_len body
          let t := read_file_spec_loop rest offset2 contents2
          (continue_request offset2 :: t.1, t.2)

/-- `read_file` over the spec's split point. -/
def read_file_spec (path : List Nat) (ns : List (List Nat)) :
    List (List Nat) × Except ProtoError (List Nat) :=
  let t := read_file_spec_loop ns 0 []
  (read_file_request path :: t.1, t.2)

/-- The start frame `write_file` sends (lib.rs lines 173-181): `offset = 0`,
the 64-bit timestamp, `total_len = data.len() as u32`, then the path. -/
def write_file_request (path : List Nat) (dataLen ts : Nat) : List Nat :=
  [32, 0] ++ u16_le path.length ++ u32_le 0 ++ u64_le ts ++ u32_le dataLen ++ path

/-- The send/receive loop of `write_file` (lib.rs lines 184-208): one valid
write receipt per iteration; the receipt's body is ignored (the `offset`
assertion is commented out in the source); the next chunk is
`data[offset..]` capped at `MAX_PAYLOAD = 231` bytes; an empty chunk stops
the transfer.  `offset` is a `u32` in the source, so the increment
`offset += remaining_data.len() as u32` is reduced modulo 2^32 here
(release-profile wrapping; a debug build would panic at the same point, and
for `data` shorter than 2^32 bytes the reduction never fires, so the two
builds agree there). -/
def write_file_loop (data : List Nat) (ns : List (List Nat)) (offset : Nat) :
    List (List Nat) × Except ProtoError Unit :=
  match ns with
  | [] => ([], .ok ())
  | frame :: rest =>
    match recv 18 33 frame with
    | .error e => ([], .error e)
    | .ok _ =>
      if data.length < offset then ([], .error .indexPanic)
      else
        let rem := (data.drop offset).take 231
        if rem = [] then ([], .ok ())
        else
          let out := [34, 1, 0, 0] ++ u32_le offset ++ u32_le rem.length ++ rem
          let t := write_file_loop data rest ((offset + rem.length) % 4294967296)
          (out :: t.1, t.2)

/-- `InfiniTime::write_file` (lib.rs lines 165-211). -/
def write_file (path data : List Nat) (ts : Nat) (ns : List (List Nat)) :
    List (List Nat) × Except ProtoError Unit :=
  let t := write_file_loop data ns 0
  (write_file_request path data.length ts :: t.1, t.2)

/-- `InfiniTime::delete_file` (lib.rs lines 213-225): the request is written,
then one `RmReceipt` (empty body, command `0x31`) is awaited and unwrapped. -/
def delete_file (path : List Nat) (ns : List (List Nat)) :
    List (List Nat) × Except ProtoError Unit :=
  ([[48, 0] ++ u16_le path.length ++ path],
    match ns with
    | [] => .error .missingReply
    | frame :: _ =>
      match recv 0 49 frame with
      | .error e => .error e
      | .ok _ => .ok ())

/-- `InfiniTime::create_dir` (lib.rs lines 227-241): request with four zero
bytes and the timestamp, then one `MkdirReceipt` (14-byte body, command
`0x41`). -/
def create_dir (path : List Nat) (ts : Nat) (ns : List (List Nat)) :
    List (List Nat) × Except ProtoError Unit :=
  ([[64, 0] ++ u16_le path.length ++ [0, 0, 0, 0] ++ u64_le ts ++ path],
    match ns with
    | [] => .error .missingReply
    | frame :: _ =>
      match recv 14 65 frame with
      | .error e => .error e
      | .ok _ => .ok ())

/-- `InfiniTime::move_file` (lib.rs lines 243-258): both length fields, the
source path, a single zero separator byte, the destination path, then one
`MvReceipt` (empty body, command `0x61`). -/
def move_file (fromPath toPath : List Nat) (ns : List (List Nat)) :
    List (List Nat) × Except ProtoError Unit :=
  ([[96, 0] ++ u16_le fromPath.length ++ u16_le toPath.length ++
      fromPath ++ [0] ++ toPath],
    match ns with
    | [] => .error .missingReply
    | frame :: _ =>
      match recv 0 97 frame with
      | .error e => .error e
      | .ok _ => .ok ())

/-- `impl Timestamp for u64` (lib.rs lines 273-277): the raw value is
returned unchanged. -/
def timestamp_of_u64 (n : Nat) : Nat := n

/-- `impl Timestamp for SystemTime` (lib.rs lines 279-287): the instant is
`nanos` nanoseconds from the Unix epoch (negative = before it);
`duration_since(UNIX_EPOCH).unwrap()` panics on a pre-epoch instant and
`as_nanos().try_into().unwrap()` panics when the count does not fit a `u64`;
`none` models either panic. -/
def timestamp_of_instant (nanos : Int) : Option Nat :=
  if nanos < 0 then none
  else if nanos.toNat < 18446744073709551616 then some nanos.toNat
  else none

/-! ## Well-formed device reply frames -/

/-- The 14-byte `FileChunk` body with the given field values. -/
def chunk_body (offset total cur : Nat) : List Nat :=
  [0, 0] ++ u32_le offset ++ u32_le total ++ u32_le cur

/-- A well-formed `FileChunk` reply frame (command `0x11`, status `1`). -/
def chunk_frame (offset total cur : Nat) (payload : List Nat) : List Nat :=
  [17, 1] ++ chunk_body offset total cur ++ payload

/-- The 26-byte `RawDirEntry` body with the given field values. -/
def dir_body (plen num cnt flags ts sz : Nat) : List Nat :=
  u16_le plen ++ u32_le num ++ u32_le cnt ++ u32_le flags ++ u64_le ts ++ u32_le sz

/-- A well-formed `RawDirEntry` reply frame (command `0x51`, status `1`). -/
def dir_frame (plen num cnt flags ts sz : Nat) (payload : List Nat) : List Nat :=
  [81, 1] ++ dir_body plen num cnt flags ts sz ++ payload

/-- A well-formed `WriteReceipt` reply frame (command `0x21`, status `1`,
18-byte body). -/
def receipt_frame (offset ts remaining : Nat) : List Nat :=
  [33, 1, 0, 0] ++ u32_le offset ++ u64_le ts ++ u32_le remaining

/-- A write receipt the client-side checks accept: 20 bytes, command `0x21`,
status byte `1`.  The body content is arbitrary. -/
def valid_receipt (frame : List Nat) : Prop :=
  frame.length = 20 ∧ frame.getD 0 256 = 33 ∧ frame.getD 1 256 = 1

instance (frame : List Nat) : Decidable (valid_receipt frame) := by
  unfold valid_receipt; infer_instance

/-! ## Little-endian round trips and frame parsing -/

theorem u16_le_length (n : Nat) : (u16_le n).length = 2 := rfl

theorem u32_le_length (n : Nat) : (u32_le n).length = 4 := rfl

theorem u64_le_length (n : Nat) : (u64_le n).length = 8 := rfl

theorem le_val_u16 (n : Nat) : le_val (u16_le n) = n % 65536 := by
  simp [le_val, u16_le]; omega

theorem le_val_u32 (n : Nat) : le_val (u32_le n) = n % 4294967296 := by
  simp [le_val, u32_le]; omega

theorem le_val_u64 (n : Nat) : le_val (u64_le n) = n % 18446744073709551616 := by
  simp [le_val, u64_le, u32_le]; omega

theorem chunk_body_offset (o t c : Nat) :
    chunk_offset (chunk_body o t c) = o % 4294967296 := by
  have h : chunk_offset (chunk_body o t c) = le_val (u32_le o) := rfl
  rw [h, le_val_u32]

theorem chunk_body_total (o t c : Nat) :
    chunk_total_len (chunk_body o t c) = t % 4294967296 := by
  have h : chunk_total_len (chunk_body o t c) = le_val (u32_le t) := rfl
  rw [h, le_val_u32]

theorem chunk_body_cur (o t c : Nat) :
    chunk_current_len (chunk_body o t c) = c % 4294967296 := by
  have h : chunk_current_len (chunk_body o t c) = le_val (u32_le c) := rfl
  rw [h, le_val_u32]

theorem dir_body_path_len (p n c f t s : Nat) :
    dir_path_len (dir_body p n c f t s) = p % 65536 := by
  have h : dir_path_len (dir_body p n c f t s) = le_val (u16_le p) := rfl
  rw [h, le_val_u16]

theorem dir_body_entry_number (p n c f t s : Nat) :
    dir_entry_number (dir_body p n c f t s) = n % 4294967296 := by
  have h : dir_entry_number (dir_body p n c f t s) = le_val (u32_le n) := rfl
  rw [h, le_val_u32]

theorem dir_body_entry_count (p n c f t s : Nat) :
    dir_entry_count (dir_body p n c f t s) = c % 4294967296 := by
  have h : dir_entry_count (dir_body p n c f t s) = le_val (u32_le c) := rfl
  rw [h, le_val_u32]

theorem dir_body_flags (p n c f t s : Nat) :
    dir_flags (dir_body p n c f t s) = f % 4294967296 := by
  have h : dir_flags (dir_body p n c f t s) = le_val (u32_le f) := rfl
  rw [h, le_val_u32]

theorem dir_body_timestamp (p n c f t s : Nat) :
    dir_timestamp (dir_body p n c f t s) = t % 18446744073709551616 := by
  have h : dir_timestamp (dir_body p n c f t s) = le_val (u64_le t) := rfl
  rw [h, le_val_u64]

theorem dir_body_size (p n c f t s : Nat) :
    dir_size (dir_body p n c f t s) = s % 4294967296 := by
  have h : dir_size (dir_body p n c f t s) = le_val (u32_le s) := rfl
  rw [h, le_val_u32]

/-- The spec-split receive accepts any frame made of a well-formed
`2 + bodySize`-byte header followed by a payload. -/
theorem payload_recv_spec_append (bodySize cmd : Nat) (hdr payload : List Nat)
    (hlen : hdr.length = 2 + bodySize) (hcmd : hdr.getD 0 256 = cmd)
    (hst : hdr.getD 1 256 = 1) :
    payload_recv_spec bodySize cmd (hdr ++ payload) = .ok (hdr.drop 2, payload) := by
  have hfl : (hdr ++ payload).length = 2 + bodySize + payload.length := by
    simp [hlen]
  have htake : (hdr ++ payload).take (2 + bodySize) = hdr := List.take_left' hlen
  have hdrop : (hdr ++ payload).drop (2 + bodySize) = payload := List.drop_left' hlen
  simp only [payload_recv_spec, hfl, htake, hdrop]
  rw [if_neg (by omega), if_neg (by omega), if_neg (by rw [hcmd]; omega),
    if_neg (by rw [hst]; simp [i8_of_byte])]

/-- The source's `payload_recv` can never succeed: it splits the buffer at
`size_of::<T>()`, leaving a prefix `bodySize` bytes long, while the
`bytemuck` cast to `Response<T>` demands `2 + bodySize` bytes. -/
theorem payload_recv_never_ok (bodySize cmd : Nat) (frame : List Nat) :
    ∃ e, payload_recv bodySize cmd frame = .error e := by
  by_cases h : frame.length < bodySize
  · exact ⟨.splitPanic, by rw [payload_recv, if_pos h]⟩
  · refine ⟨.sizeMismatch, ?_⟩
    have ht : (frame.take bodySize).length = bodySize := by
      rw [List.length_take]; omega
    simp only [payload_recv, ht]
    rw [if_neg h, if_pos (by omega)]

/-- A receipt that passes the client checks makes `recv` succeed. -/
theorem recv_valid_receipt (frame : List Nat) (h : valid_receipt frame) :
    recv 18 33 frame = .ok (frame.drop 2) := by
  obtain ⟨h1, h2, h3⟩ := h
  rw [recv, if_neg (by rw [h1]; omega), if_neg (by rw [h2]; omega),
    if_neg (by rw [h3]; simp [i8_of_byte])]

/-! ## Device reply scripts -/

/-- A device-side reply script for `read_file` that passes every client-side
check when the client's running offset is `off` (the running offset always
equals the accumulated length): each frame carries the running offset, its
payload's length as `current_len`, and some `total_len`; the script ends
exactly at the first frame whose payload brings the accumulated length to
that frame's `total_len`.  `res` collects the payloads in arrival order and
`conts` the continue requests the client must emit after each non-final
frame. -/
inductive ChunkScript : Nat → List (List Nat) → List Nat → List (List Nat) → Prop where
  | last (off total : Nat) (payload : List Nat)
      (htotal : total < 4294967296)
      (hdone : off + payload.length = total) :
      ChunkScript off [chunk_frame off total payload.length payload] payload []
  | step (off total : Nat) (payload : List Nat) (ns : List (List Nat))
      (res : List Nat) (conts : List (List Nat))
      (htotal : total < 4294967296)
      (hoff : off + payload.length < 4294967296)
      (hmore : off + payload.length ≠ total)
      (htail : ChunkScript (off + payload.length) ns res conts) :
      ChunkScript off (chunk_frame off total payload.length payload :: ns)
        (payload ++ res) (continue_request (off + payload.length) :: conts)

/-- A device-side reply script for `list_dir` that passes every client-side
check when the client has already accumulated `n` entries: frame `i` carries
`entry_number = n + i`, `path_len` equal to its payload length, and some
`entry_count`; the script ends exactly at the first frame whose
`entry_number` equals its `entry_count`.  `es` collects the decoded entries
in arrival order. -/
inductive DirScript : Nat → List (List Nat) → List DirEntry → Prop where
  | last (n cnt flags ts sz : Nat) (payload : List Nat)
      (hn : n < 4294967296) (hp : payload.length < 65536)
      (hflags : flags < 4294967296) (hts : ts < 18446744073709551616)
      (hsz : sz < 4294967296)
      (hcnt : cnt % 4294967296 = n) :
      DirScript n [dir_frame payload.length n cnt flags ts sz payload]
        [⟨flags, ts, sz, from_utf8_lossy payload⟩]
  | step (n cnt flags ts sz : Nat) (payload : List Nat)
      (ns : List (List Nat)) (es : List DirEntry)
      (hn : n < 4294967296) (hp : payload.length < 65536)
      (hflags : flags < 4294967296) (hts : ts < 18446744073709551616)
      (hsz : sz < 4294967296)
      (hcnt : cnt % 4294967296 ≠ n)
      (htail : DirScript (n + 1) ns es) :
      DirScript n (dir_frame payload.length n cnt flags ts sz payload :: ns)
        (⟨flags, ts, sz, from_utf8_lossy payload⟩ :: es)

/-- A well-formed chunk frame parses under the spec-split receive. -/
theorem payload_recv_spec_chunk (o t c : Nat) (p : List Nat) :
    payload_recv_spec 14 17 (chunk_frame o t c p) = .ok (chunk_body o t c, p) :=
  payload_recv_spec_append 14 17 ([17, 1] ++ chunk_body o t c) p
    (by simp [chunk_body, u32_le]) rfl rfl

/-- A well-formed directory-entry frame parses under the spec-split
receive. -/
theorem payload_recv_spec_dir (p n c f t s : Nat) (payload : List Nat) :
    payload_recv_spec 26 81 (dir_frame p n c f t s payload) =
      .ok (dir_body p n c f t s, payload) :=
  payload_recv_spec_append 26 81 ([81, 1] ++ dir_body p n c f t s) payload
    (by simp [dir_body, u16_le, u32_le, u64_le]) rfl rfl

/-- Under the spec's split point, the `read_file` receive loop consumes a
valid chunk script exactly: it emits the expected continue requests and
returns the accumulated contents extended by all payloads. -/
theorem read_file_spec_loop_script {off : Nat} {ns : List (List Nat)}
    {res : List Nat} {conts : List (List Nat)} (h : ChunkScript off ns res conts) :
    ∀ contents : List Nat, contents.length = off →
      read_file_spec_loop ns off contents = (conts, .ok (contents ++ res)) := by
  induction h with
  | last off total payload htotal hdone =>
    intro contents hlen
    have h1 : off % 4294967296 = off := Nat.mod_eq_of_lt (by omega)
    have h2 : payload.length % 4294967296 = payload.length := Nat.mod_eq_of_lt (by omega)
    have h3 : total % 4294967296 = total := Nat.mod_eq_of_lt (by omega)
    simp only [read_file_spec_loop, payload_recv_spec_chunk, chunk_body_offset,
      chunk_body_total, chunk_body_cur, h1, h2, h3]
    rw [if_neg (show ¬off ≠ off by omega),
      if_neg (show ¬payload.length ≠ payload.length by omega),
      if_pos (show (contents ++ payload).length = total by
        rw [List.length_append, hlen]; omega)]
  | step off total payload ns res conts htotal hoff hmore htail ih =>
    intro contents hlen
    have h1 : off % 4294967296 = off := Nat.mod_eq_of_lt (by omega)
    have h2 : payload.length % 4294967296 = payload.length := Nat.mod_eq_of_lt (by omega)
    have h3 : total % 4294967296 = total := Nat.mod_eq_of_lt (by omega)
    simp only [read_file_spec_loop, payload_recv_spec_chunk, chunk_body_offset,
      chunk_body_total, chunk_body_cur, h1, h2, h3]
    rw [if_neg (show ¬off ≠ off by omega),
      if_neg (show ¬payload.length ≠ payload.length by omega),
      if_neg (show ¬(contents ++ payload).length = total by
        rw [List.length_append, hlen]; omega),
      ih (contents ++ payload) (by rw [List.length_append, hlen])]
    simp

/-- Under the spec's split point, the `list_dir` receive loop consumes a
valid directory script exactly, appending the decoded entries in arrival
order. -/
theorem list_dir_spec_loop_script {n : Nat} {ns : List (List Nat)}
    {es : List DirEntry} (h : DirScript n ns es) :
    ∀ acc : List DirEntry, acc.length = n →
      list_dir_spec_loop ns acc = .ok (acc ++ es) := by
  induction h with
  | last n cnt flags ts sz payload hn hp hflags hts hsz hcnt =>
    intro acc hlen
    have h1 : n % 4294967296 = n := Nat.mod_eq_of_lt hn
    have h2 : payload.length % 65536 = payload.length := Nat.mod_eq_of_lt hp
    simp only [list_dir_spec_loop, payload_recv_spec_dir, dir_body_path_len,
      dir_body_entry_number, dir_body_entry_count, dir_body_flags,
      dir_body_timestamp, dir_body_size, h1, h2, Nat.mod_eq_of_lt hflags,
      Nat.mod_eq_of_lt hts, Nat.mod_eq_of_lt hsz, hcnt]
    rw [if_neg (show ¬n ≠ acc.length by omega),
      if_neg (show ¬payload.length ≠ payload.length by omega)]
    simp
  | step n cnt flags ts sz payload ns es hn hp hflags hts hsz hcnt htail ih =>
    intro acc hlen
    have h1 : n % 4294967296 = n := Nat.mod_eq_of_lt hn
    have h2 : payload.length % 65536 = payload.length := Nat.mod_eq_of_lt hp
    simp only [list_dir_spec_loop, payload_recv_spec_dir, dir_body_path_len,
      dir_body_entry_number, dir_body_entry_count, dir_body_flags,
      dir_body_timestamp, dir_body_size, h1, h2, Nat.mod_eq_of_lt hflags,
      Nat.mod_eq_of_lt hts, Nat.mod_eq_of_lt hsz]
    rw [if_neg (show ¬n ≠ acc.length by omega),
      if_neg (show ¬payload.length ≠ payload.length by omega),
      if_neg (show ¬n = cnt % 4294967296 by omega),
      ih (acc ++ [DirEntry.mk flags ts sz (from_utf8_lossy payload)]) (by simp [hlen])]
    simp

/-- The chunk frames `write_file` must emit for `data` starting at `offset`:
one `0x22` frame per remaining slice of at most 231 bytes. -/
def write_chunk_frames (data : List Nat) (offset : Nat) : List (List Nat) :=
  if data.length ≤ offset then []
  else
    let rem := (data.drop offset).take 231
    ([34, 1, 0, 0] ++ u32_le offset ++ u32_le rem.length ++ rem) ::
      write_chunk_frames data (offset + rem.length)
termination_by data.length - offset
decreasing_by
  simp only [List.length_take, List.length_drop]
  omega

/-- Given enough valid receipts, the `write_file` loop emits exactly the
expected chunk frames and succeeds; receipts beyond the one that observes an
empty remaining slice are not consumed.  The bound `data.length < 2^32`
keeps every offset inside the source's `u32` range, so its wrapping
increment never reduces. -/
theorem write_file_loop_chunks (data : List Nat)
    (hbound : data.length < 4294967296) :
    ∀ (rs : List (List Nat)) (offset : Nat),
      (∀ r ∈ rs, valid_receipt r) → offset ≤ data.length →
      (write_chunk_frames data offset).length + 1 ≤ rs.length →
      write_file_loop data rs offset = (write_chunk_frames data offset, .ok ()) := by
  intro rs
  induction rs with
  | nil =>
    intro offset hvalid hoff hlen
    simp at hlen
  | cons r rest ih =>
    intro offset hvalid hoff hlen
    simp only [List.length_cons] at hlen
    simp only [write_file_loop, recv_valid_receipt r (hvalid r (by simp))]
    rw [if_neg (show ¬data.length < offset by omega)]
    by_cases hrem : (data.drop offset).take 231 = []
    · have hle : data.length ≤ offset := by
        rcases List.take_eq_nil_iff.mp hrem with h | h
        · omega
        · have := List.drop_eq_nil_iff.mp h
          omega
      rw [if_pos hrem, write_chunk_frames, if_pos hle]
    · have hlt : offset < data.length := by
        by_contra hc
        exact hrem (by
          rw [List.drop_eq_nil_of_le (by omega)]
          simp)
      have hremlen : 1 ≤ ((data.drop offset).take 231).length := by
        cases hr : (data.drop offset).take 231 with
        | nil => exact absurd hr hrem
        | cons a l => simp
      have hremle : ((data.drop offset).take 231).length ≤ data.length - offset := by
        simp only [List.length_take, List.length_drop]
        omega
      have hmod : (offset + ((data.drop offset).take 231).length) % 4294967296 =
          offset + ((data.drop offset).take 231).length :=
        Nat.mod_eq_of_lt (by omega)
    -- unfold the expected frame list once
      rw [if_neg hrem, hmod, write_chunk_frames,
        if_neg (show ¬data.length ≤ offset by omega)]
      have hnext := ih (offset + ((data.drop offset).take 231).length)
        (fun x hx => hvalid x (by simp [hx]))
        (by omega)
        (by
          have : (write_chunk_frames data offset).length =
              (write_chunk_frames data (offset + ((data.drop offset).take 231).length)).length + 1 := by
            rw [write_chunk_frames, if_neg (show ¬data.length ≤ offset by omega)]
            simp
          omega)
      rw [hnext]

/-- Every chunk frame built for `write_file` carries at most 231 payload
bytes after its 12-byte header. -/
theorem write_chunk_frames_payload_le (data : List Nat) :
    ∀ (fuel offset : Nat), data.length - offset ≤ fuel →
      ∀ f ∈ write_chunk_frames data offset, (f.drop 12).length ≤ 231 := by
  intro fuel
  induction fuel with
  | zero =>
    intro offset hf f hmem
    rw [write_chunk_frames, if_pos (by omega)] at hmem
    simp at hmem
  | succ k ih =>
    intro offset hf f hmem
    by_cases hle : data.length ≤ offset
    · rw [write_chunk_frames, if_pos hle] at hmem
      simp at hmem
    · rw [write_chunk_frames, if_neg hle] at hmem
      rcases List.mem_cons.mp hmem with hhead | htail
      · subst hhead
        simp only [List.length_drop, List.length_append, List.length_take,
          u32_le_length, List.length_cons, List.length_nil]
        omega
      · have hremlen : 1 ≤ ((data.drop offset).take 231).length := by
          cases hr : (data.drop offset).take 231 with
          | nil =>
            exfalso
            rcases List.take_eq_nil_iff.mp hr with h | h
            · omega
            · have := List.drop_eq_nil_iff.mp h
              omega
          | cons a l => simp
        exact ih (offset + ((data.drop offset).take 231).length) (by omega) f htail

/-- Two write receipts the loop cannot tell apart: same length and same
first two bytes (command and status); the body — offset, timestamp,
remaining — may differ arbitrarily. -/
def receipt_like (r1 r2 : List Nat) : Prop :=
  r1.length = r2.length ∧ r1.getD 0 256 = r2.getD 0 256 ∧ r1.getD 1 256 = r2.getD 1 256

instance (r1 r2 : List Nat) : Decidable (receipt_like r1 r2) := by
  unfold receipt_like; infer_instance

/-- `recv` treats `receipt_like` frames identically: both fail with the same
error, or both succeed. -/
theorem recv_receipt_like {r1 r2 : List Nat} (h : receipt_like r1 r2) :
    (∃ e, recv 18 33 r1 = .error e ∧ recv 18 33 r2 = .error e) ∨
      (recv 18 33 r1 = .ok (r1.drop 2) ∧ recv 18 33 r2 = .ok (r2.drop 2)) := by
  obtain ⟨h1, h2, h3⟩ := h
  unfold recv
  rw [h1, h2, h3]
  by_cases c1 : r2.length ≠ 2 + 18
  · exact .inl ⟨.sizeMismatch, by rw [if_pos c1], by rw [if_pos c1]⟩
  · rw [if_neg c1, if_neg c1]
    by_cases c2 : r2.getD 0 256 ≠ 33
    · exact .inl ⟨.badCommand, by rw [if_pos c2], by rw [if_pos c2]⟩
    · rw [if_neg c2, if_neg c2]
      by_cases c3 : i8_of_byte (r2.getD 1 256) ≠ 1
      · exact .inl ⟨.badStatus, by rw [if_pos c3], by rw [if_pos c3]⟩
      · rw [if_neg c3, if_neg c3]
        exact .inr ⟨rfl, rfl⟩

/-- The `write_file` loop is insensitive to the receipt bodies: pointwise
`receipt_like` receipt streams produce the same emitted frames and the same
result. -/
theorem write_file_loop_receipt_like (data : List Nat) :
    ∀ {rs1 rs2 : List (List Nat)}, List.Forall₂ receipt_like rs1 rs2 →
      ∀ offset, write_file_loop data rs1 offset = write_file_loop data rs2 offset := by
  intro rs1 rs2 h
  induction h with
  | nil => intro offset; rfl
  | @cons r1 r2 t1 t2 hr ht ih =>
    intro offset
    rcases recv_receipt_like hr with ⟨e, he1, he2⟩ | ⟨ho1, ho2⟩
    · simp only [write_file_loop, he1, he2]
    · simp only [write_file_loop, ho1, ho2]
      by_cases hidx : data.length < offset
      · rw [if_pos hidx, if_pos hidx]
      · rw [if_neg hidx, if_neg hidx]
        by_cases hrem : (data.drop offset).take 231 = []
        · rw [if_pos hrem, if_pos hrem]
        · rw [if_neg hrem, if_neg hrem, ih]

/-- The 16-bit length field only keeps a length's low 16 bits. -/
theorem u16_le_mod (n : Nat) : u16_le (n % 65536) = u16_le n := by
  simp only [u16_le, List.cons.injEq, and_true]
  omega

/-! ## Claim theorems -/

/-- C3: whenever the first byte of a received notification differs from the
expected response command (the request opcode plus one), or its second byte,
read as a signed `i8`, differs from `1` — which covers `0` and every
negative value — both receive helpers fail with an error instead of
returning a parsed response (the loops they feed then stop, so the session
does not hang). -/
theorem receive_rejects_bad_header :
    (∀ (bodySize cmd : Nat) (frame : List Nat),
        frame.getD 0 256 ≠ cmd ∨ i8_of_byte (frame.getD 1 256) ≠ 1 →
        ∃ e, recv bodySize cmd frame = .error e) ∧
    (∀ (bodySize cmd : Nat) (frame : List Nat),
        frame.getD 0 256 ≠ cmd ∨ i8_of_byte (frame.getD 1 256) ≠ 1 →
        ∃ e, payload_recv bodySize cmd frame = .error e) := by
  constructor
  · intro bodySize cmd frame hbad
    by_cases h1 : frame.length ≠ 2 + bodySize
    · exact ⟨.sizeMismatch, by rw [recv, if_pos h1]⟩
    · by_cases hc : frame.getD 0 256 ≠ cmd
      · exact ⟨.badCommand, by rw [recv, if_neg h1, if_pos hc]⟩
      · rcases hbad with hc2 | hs
        · exact absurd hc2 hc
        · exact ⟨.badStatus, by rw [recv, if_neg h1, if_neg hc, if_pos hs]⟩
  · intro bodySize cmd frame _
    exact payload_recv_never_ok bodySize cmd frame

/-- Witness for C3 at concrete frames: a delete receipt whose command byte is
`0x32` instead of `0x31`, and a chunk frame whose status byte is `0`. -/
theorem receive_rejects_bad_header_witness :
    (∃ e, recv 0 49 [50, 1] = .error e) ∧
    ∃ e2, payload_recv 14 17 ([17, 0] ++ chunk_body 0 1 1 ++ [65]) = .error e2 :=
  ⟨receive_rejects_bad_header.1 0 49 [50, 1] (by decide),
    receive_rejects_bad_header.2 14 17 ([17, 0] ++ chunk_body 0 1 1 ++ [65]) (by decide)⟩

/-- C6: the single-shot request encodings are bit-exact: `delete_file`
writes `[0x30, 0x00, path_len as u16 LE, path]`, `move_file` writes
`[0x60, 0x00, from_len LE, to_len LE, from, 0x00, to]`; concretely
`delete_file "x"` writes `30 00 01 00 78` and `move_file "a" "b"` writes
`60 00 01 00 01 00 61 00 62`. -/
theorem single_shot_request_encoding :
    (∀ (path : List Nat) (ns : List (List Nat)),
        (delete_file path ns).1 = [[48, 0] ++ u16_le path.length ++ path]) ∧
    (∀ (fromPath toPath : List Nat) (ns : List (List Nat)),
        (move_file fromPath toPath ns).1 =
          [[96, 0] ++ u16_le fromPath.length ++ u16_le toPath.length ++
            fromPath ++ [0] ++ toPath]) ∧
    (delete_file [120] []).1 = [[48, 0, 1, 0, 120]] ∧
    (move_file [97] [98] []).1 = [[96, 0, 1, 0, 1, 0, 97, 0, 98]] :=
  ⟨fun _ _ => rfl, fun _ _ _ => rfl, rfl, rfl⟩

/-- Counterexample for C7: a 65536-byte path is not rejected — `delete_file`
still writes a request frame (with a truncated zero length field and all
65536 path bytes) and, given a receipt, completes successfully; no argument
check exists before the send. -/
theorem long_path_not_rejected_cx :
    (delete_file (List.replicate 65536 97) []).1 =
      [[48, 0, 0, 0] ++ List.replicate 65536 97] ∧
    (delete_file (List.replicate 65536 97) [[49, 1]]).2 = .ok () := by
  constructor
  · have hgen : ∀ L : List Nat, L.length = 65536 →
        (delete_file L []).1 = [[48, 0, 0, 0] ++ L] := by
      intro L hL
      show [[48, 0] ++ u16_le L.length ++ L] = _
      rw [hL]
      rfl
    exact hgen _ (List.length_replicate 65536 97)
  · rfl

/-- C7 amended: no path-taking operation rejects a path longer than 65535
bytes; each sends its request with the length field reduced modulo 2^16 and
the full path bytes (shown in general for `delete_file` and at a 65536-byte
path for every operation, where the length field becomes `00 00`). -/
theorem long_path_truncates :
    (∀ (path : List Nat) (ns : List (List Nat)),
        (delete_file path ns).1 = [[48, 0] ++ u16_le (path.length % 65536) ++ path]) ∧
    (list_dir (List.replicate 65536 97) []).1 =
      [[80, 0, 0, 0] ++ List.replicate 65536 97] ∧
    (read_file (List.replicate 65536 97) []).1 =
      [[16, 0, 0, 0, 0, 0, 0, 0, 231, 0, 0, 0] ++ List.replicate 65536 97] ∧
    (write_file (List.replicate 65536 97) [] 0 []).1 =
      [[32, 0, 0, 0, 0, 0, 0, 0, 0, 0, 0, 0, 0, 0, 0, 0, 0, 0, 0, 0] ++
        List.replicate 65536 97] ∧
    (create_dir (List.replicate 65536 97) 0 []).1 =
      [[64, 0, 0, 0, 0, 0, 0, 0, 0, 0, 0, 0, 0, 0, 0, 0] ++
        List.replicate 65536 97] ∧
    (move_file (List.replicate 65536 97) [98] []).1 =
      [[96, 0, 0, 0, 1, 0] ++ (List.replicate 65536 97 ++ [0, 98])] := by
  have hlen := List.length_replicate 65536 97
  refine ⟨?_, ?_, ?_, ?_, ?_, ?_⟩
  · intro path ns
    rw [u16_le_mod]
    rfl
  · have hgen : ∀ L : List Nat, L.length = 65536 →
        (list_dir L []).1 = [[80, 0, 0, 0] ++ L] := by
      intro L hL
      show [[80, 0] ++ u16_le L.length ++ L] = _
      rw [hL]
      rfl
    exact hgen _ hlen
  · have hgen : ∀ L : List Nat, L.length = 65536 →
        (read_file L []).1 = [[16, 0, 0, 0, 0, 0, 0, 0, 231, 0, 0, 0] ++ L] := by
      intro L hL
      show [[16, 0] ++ u16_le L.length ++ u32_le 0 ++ u32_le 231 ++ L] = _
      rw [hL]
      rfl
    exact hgen _ hlen
  · have hgen : ∀ L : List Nat, L.length = 65536 →
        (write_file L [] 0 []).1 =
          [[32, 0, 0, 0, 0, 0, 0, 0, 0, 0, 0, 0, 0, 0, 0, 0, 0, 0, 0, 0] ++ L] := by
      intro L hL
      show [[32, 0] ++ u16_le L.length ++ u32_le 0 ++ u64_le 0 ++ u32_le 0 ++ L] = _
      rw [hL]
      rfl
    exact hgen _ hlen
  · have hgen : ∀ L : List Nat, L.length = 65536 →
        (create_dir L 0 []).1 =
          [[64, 0, 0, 0, 0, 0, 0, 0, 0, 0, 0, 0, 0, 0, 0, 0] ++ L] := by
      intro L hL
      show [[64, 0] ++ u16_le L.length ++ [0, 0, 0, 0] ++ u64_le 0 ++ L] = _
      rw [hL]
      rfl
    exact hgen _ hlen
  · have hgen : ∀ L : List Nat, L.length = 65536 →
        (move_file L [98] []).1 = [[96, 0, 0, 0, 1, 0] ++ (L ++ [0, 98])] := by
      intro L hL
      show [[96, 0] ++ u16_le L.length ++ u16_le 1 ++ L ++ [0] ++ [98]] = _
      rw [hL]
      simp only [List.append_assoc]
      rfl
    exact hgen _ hlen

/-- C9: `impl Timestamp for u64` passes the raw nanosecond count through
unchanged, and for every wall-clock instant the conversion accepts (it
panics on pre-epoch instants and on counts of 2^64 nanoseconds or more), the
value placed in the timestamp field equals the nanoseconds since the Unix
epoch reduced modulo 2^64. -/
theorem timestamp_conversion :
    (∀ (nanos : Int) (v : Nat), timestamp_of_instant nanos = some v →
        v = nanos.toNat % 18446744073709551616) ∧
    (∀ n : Nat, timestamp_of_u64 n = n) := by
  constructor
  · intro nanos v h
    unfold timestamp_of_instant at h
    by_cases h1 : nanos < 0
    · rw [if_pos h1] at h
      exact absurd h (by simp)
    · rw [if_neg h1] at h
      by_cases h2 : nanos.toNat < 18446744073709551616
      · rw [if_pos h2] at h
        have hv : nanos.toNat = v := Option.some.inj h
        omega
      · rw [if_neg h2] at h
        exact absurd h (by simp)
  · intro n
    rfl

/-- Witness for C9: the instant 7 ns after the epoch is accepted and encodes
as `7 = 7 % 2^64`. -/
theorem timestamp_conversion_witness :
    timestamp_of_instant 7 = some 7 ∧
      (7 : Nat) = (7 : Int).toNat % 18446744073709551616 :=
  ⟨by decide, timestamp_conversion.1 7 7 (by decide)⟩

/-- C10: if the notification stream is exhausted while a reply is awaited,
the multi-frame loops of `read_file`, `list_dir` and `write_file` exit and
the operation returns success with whatever was accumulated or written so
far, while the single-shot `delete_file`, `create_dir` and `move_file` fail
on the missing receipt. -/
theorem stream_exhaustion_behavior :
    (∀ (offset : Nat) (contents : List Nat),
        read_file_loop [] offset contents = ([], .ok contents)) ∧
    (∀ acc : List DirEntry, list_dir_loop [] acc = .ok acc) ∧
    (∀ (data : List Nat) (offset : Nat),
        write_file_loop data [] offset = ([], .ok ())) ∧
    (∀ path : List Nat, (read_file path []).2 = .ok []) ∧
    (∀ path : List Nat, (list_dir path []).2 = .ok []) ∧
    (∀ (path data : List Nat) (ts : Nat), (write_file path data ts []).2 = .ok ()) ∧
    (∀ path : List Nat, (delete_file path []).2 = .error .missingReply) ∧
    (∀ (path : List Nat) (ts : Nat), (create_dir path ts []).2 = .error .missingReply) ∧
    (∀ fromPath toPath : List Nat, (move_file fromPath toPath []).2 = .error .missingReply) :=
  ⟨fun _ _ => rfl, fun _ => rfl, fun _ _ => rfl, fun _ => rfl, fun _ => rfl,
    fun _ _ _ => rfl, fun _ => rfl, fun _ _ => rfl, fun _ _ => rfl⟩

/-- C1: as written, `read_file` panics on the very first well-formed chunk
frame, because `payload_recv` splits the notification at
`size_of::<FileChunk>() = 14` instead of `2 + 14` (shown at the single-chunk
reply for a one-byte file); under the spec's split point the claimed
behaviour holds: for every chunk script that passes validation, `read_file`
returns exactly the concatenated payloads, terminates at the first frame
whose `total_len` equals the accumulated length, and after every non-final
frame emits `[0x12, 0x01, 0, 0, advanced offset LE, 231 LE]`. -/
theorem read_file_chunk_stream :
    (read_file [120] [chunk_frame 0 1 1 [65]] =
      ([read_file_request [120]], .error .sizeMismatch)) ∧
    (∀ (path : List Nat) (ns : List (List Nat)) (res : List Nat)
        (conts : List (List Nat)), ChunkScript 0 ns res conts →
        read_file_spec path ns = (read_file_request path :: conts, .ok res)) := by
  refine ⟨rfl, ?_⟩
  intro path ns res conts h
  have hloop := read_file_spec_loop_script h [] rfl
  simp [read_file_spec, hloop]

/-- Witness for C1: a two-chunk transfer of `[10, 20, 30]` with
`total_len = 3` — one continue request at offset 2, contents concatenated in
arrival order. -/
theorem read_file_chunk_stream_witness :
    read_file_spec [120] [chunk_frame 0 3 2 [10, 20], chunk_frame 2 3 1 [30]] =
      ([read_file_request [120], continue_request 2], .ok [10, 20, 30]) :=
  read_file_chunk_stream.2 [120] _ _ _
    (ChunkScript.step 0 3 [10, 20] _ _ _ (by decide) (by decide) (by decide)
      (ChunkScript.last 2 3 [30] (by decide) (by decide)))

/-- C5: as written, `list_dir` panics on the very first well-formed
`RawDirEntry` frame (mis-sized split, shown at the one-entry reply from the
spec's own example); under the spec's split point the claimed behaviour
holds: a frame is accepted only when its `entry_number` equals the number of
accumulated entries and its `path_len` the payload length, the loop stops
exactly at the first frame with `entry_number = entry_count`, and the
returned entries keep arrival order with flags, timestamp, size and
lossily-decoded path taken from their frames. -/
theorem list_dir_entry_stream :
    ((list_dir [47] [dir_frame 1 0 1 2 0 0 [65]]).2 = .error .sizeMismatch) ∧
    (∀ (path : List Nat) (ns : List (List Nat)) (es : List DirEntry),
        DirScript 0 ns es →
        list_dir_spec path ns = ([list_dir_request path], .ok es)) ∧
    (∀ (ns : List (List Nat)) (acc : List DirEntry) (plen num cnt flags ts sz : Nat)
        (payload : List Nat),
        num < 4294967296 → num ≠ acc.length →
        list_dir_spec_loop (dir_frame plen num cnt flags ts sz payload :: ns) acc =
          .error .assertFail) ∧
    (∀ (ns : List (List Nat)) (acc : List DirEntry) (plen num cnt flags ts sz : Nat)
        (payload : List Nat),
        num < 4294967296 → num = acc.length →
        plen % 65536 ≠ payload.length →
        list_dir_spec_loop (dir_frame plen num cnt flags ts sz payload :: ns) acc =
          .error .assertFail) := by
  refine ⟨rfl, ?_, ?_, ?_⟩
  · intro path ns es h
    have hloop := list_dir_spec_loop_script h [] rfl
    simp [list_dir_spec, hloop]
  · intro ns acc plen num cnt flags ts sz payload hnum hne
    simp only [list_dir_spec_loop, payload_recv_spec_dir, dir_body_entry_number]
    rw [if_pos (show num % 4294967296 ≠ acc.length by rw [Nat.mod_eq_of_lt hnum]; omega)]
  · intro ns acc plen num cnt flags ts sz payload hnum heq hplen
    simp only [list_dir_spec_loop, payload_recv_spec_dir, dir_body_entry_number,
      dir_body_path_len]
    rw [if_neg (show ¬num % 4294967296 ≠ acc.length by rw [Nat.mod_eq_of_lt hnum]; omega),
      if_pos hplen]

/-- Witness for C5: a directory with one real entry (`"A"`, flags 2) followed
by the closing frame with `entry_number = entry_count = 1`, which is also
recorded. -/
theorem list_dir_entry_stream_witness :
    list_dir_spec [47] [dir_frame 1 0 2 2 0 0 [65], dir_frame 0 1 1 3 9 7 []] =
      ([list_dir_request [47]],
        .ok [DirEntry.mk 2 0 0 [Char.ofNat 65], DirEntry.mk 3 9 7 []]) :=
  list_dir_entry_stream.2.1 [47] _ _
    (DirScript.step 0 2 2 0 0 [65] _ _ (by decide) (by decide) (by decide) (by decide)
      (by decide) (by decide)
      (DirScript.last 1 1 3 9 7 [] (by decide) (by decide) (by decide) (by decide)
        (by decide) (by decide)))

/-- Counterexample for C4: on the empty-directory end sentinel
(`entry_number = entry_count = 0`, `path_len = 0`, empty payload) `list_dir`
does not return an empty sequence. -/
theorem list_dir_empty_sentinel_cx :
    (list_dir [47] [dir_frame 0 0 0 0 0 0 []]).2 ≠ .ok ([] : List DirEntry) := by
  intro h
  rw [show (list_dir [47] [dir_frame 0 0 0 0 0 0 []]).2 =
      .error .sizeMismatch from rfl] at h
  exact Except.noConfusion h

/-- C4 amended: on the empty-directory sentinel the source's `list_dir`
fails with the mis-sized-split protocol error like on every reply frame;
under the spec's split point it does terminate after that single frame, but
it records the sentinel as one entry with an empty path rather than
returning an empty sequence. -/
theorem list_dir_empty_sentinel :
    (list_dir [47] [dir_frame 0 0 0 0 0 0 []]).2 = .error .sizeMismatch ∧
    (list_dir_spec [47] [dir_frame 0 0 0 0 0 0 []]).2 =
      .ok [DirEntry.mk 0 0 0 []] :=
  ⟨rfl, rfl⟩

/-- C2: `write_file` first writes the `0x20` start frame with
`total_len = data.len()`, then after each valid receipt writes
`data[offset .. min(len, offset + 231)]` as a `0x22` frame
(`[0x22, 0x01, 0, 0, offset LE, chunk length LE, chunk]`), never more than
231 payload bytes per chunk, stopping with success at the first receipt that
observes an empty remaining slice; a 300-byte write with three receipts
produces exactly the two chunk frames (231 bytes at offset 0, 69 bytes at
offset 231) and succeeds.  The general statement is bounded to buffers
shorter than 2^32 bytes — the domain of the wire's `u32` `total_len` field,
on which the source's `u32` offset never wraps. -/
theorem write_file_chunking :
    (∀ (path data : List Nat) (ts : Nat) (rs : List (List Nat)),
        data.length < 4294967296 →
        (∀ r ∈ rs, valid_receipt r) →
        (write_chunk_frames data 0).length + 1 ≤ rs.length →
        write_file path data ts rs =
          (write_file_request path data.length ts :: write_chunk_frames data 0,
            .ok ())) ∧
    (∀ (data : List Nat) (offset : Nat), ∀ f ∈ write_chunk_frames data offset,
        (f.drop 12).length ≤ 231) ∧
    (write_file [120] (List.range 300) 0
        [receipt_frame 0 0 0, receipt_frame 231 1 5, receipt_frame 300 2 9] =
      ([write_file_request [120] 300 0,
        [34, 1, 0, 0, 0, 0, 0, 0, 231, 0, 0, 0] ++ (List.range 300).take 231,
        [34, 1, 0, 0, 231, 0, 0, 0, 69, 0, 0, 0] ++ (List.range 300).drop 231],
        .ok ())) := by
  refine ⟨?_, ?_, ?_⟩
  · intro path data ts rs hbound hvalid hcount
    have hloop := write_file_loop_chunks data hbound rs 0 hvalid (by omega) hcount
    simp [write_file, hloop]
  · intro data offset f hf
    exact write_chunk_frames_payload_le data (data.length - offset) offset
      (by omega) f hf
  · set_option maxRecDepth 10000 in rfl

/-- Witness for C2: a two-byte write with two valid receipts emits the start
frame and one two-byte chunk and succeeds. -/
theorem write_file_chunking_witness :
    write_file [7] [5, 6] 3 [receipt_frame 0 0 0, receipt_frame 2 0 0] =
      ([write_file_request [7] 2 3,
        [34, 1, 0, 0, 0, 0, 0, 0, 2, 0, 0, 0, 5, 6]], .ok ()) := by
  have hwcf : write_chunk_frames [5, 6] 0 =
      [[34, 1, 0, 0, 0, 0, 0, 0, 2, 0, 0, 0, 5, 6]] := by
    rw [write_chunk_frames]
    norm_num
    rw [write_chunk_frames]
    norm_num
    decide
  have h := write_file_chunking.1 [7] [5, 6] 3
    [receipt_frame 0 0 0, receipt_frame 2 0 0] (by decide) (by decide)
    (by rw [hwcf]; decide)
  rw [h, hwcf]
  rfl

/-- C8: `write_file` never validates the body of a write receipt: two runs
on the same path, data and timestamp whose receipt streams agree in length
and in the command and status bytes — differing arbitrarily in the echoed
offset, timestamp and remaining fields — write identical frames and return
the identical result. -/
theorem write_receipt_body_ignored :
    ∀ (path data : List Nat) (ts : Nat) (rs1 rs2 : List (List Nat)),
      List.Forall₂ receipt_like rs1 rs2 →
      write_file path data ts rs1 = write_file path data ts rs2 := by
  intro path data ts rs1 rs2 h
  unfold write_file
  rw [write_file_loop_receipt_like data h 0]

/-- Witness for C8: receipts whose echoed offsets, timestamps and remaining
fields disagree wildly produce the same two frames and the same result. -/
theorem write_receipt_body_ignored_witness :
    write_file [7] [5, 6] 3 [receipt_frame 0 0 0, receipt_frame 2 0 0] =
      write_file [7] [5, 6] 3 [receipt_frame 999 123 7, receipt_frame 1 88 44] :=
  write_receipt_body_ignored [7] [5, 6] 3 _ _
    (List.Forall₂.cons (by decide) (List.Forall₂.cons (by decide) List.Forall₂.nil))

end PineTime
